import Mathlib

set_option autoImplicit false

/-!
Verification development for the giotto-deep preprocessing pipeline
(`gdeep/data/preprocessing_pipes.py`).

Shallow embedding conventions:
* A stage object is a Lean structure whose fields mirror the Python
  instance attributes.  Attributes that only exist after `fit_to_data`
  (the vocabulary of the text stages, `pad_item` of the QA stage) are
  `Option`-valued, `none` standing for the absent / `None` attribute.
* The persisted-state file of a stage is modelled as `Option σ`: `none`
  when no file for the stage type exists at the path, `some snapshot`
  when a file holding the (jsonpickle-decoded) snapshot exists.
  `save_pretrained` returns the file it writes; `load_pretrained`
  mirrors the source exactly: it binds the decoded snapshot to a local
  name (the Python method rebinds its local `self`) and returns the
  receiver unchanged, together with a flag recording whether the
  missing-file warning was emitted.
* Methods that mutate the receiver return the new state explicitly;
  warnings are returned as `Bool` flags.
* Fallible operations (indexing a `None` vocabulary, the unguarded
  `torch.ones(MAX_LENGTH - n)` with a negative argument, indexing an
  empty tuple) are modelled with `Option`.
* Tensors of rationals stand for the float tensors of the source;
  tokenizers (`get_tokenizer('basic_english')`) and the torchtext
  `Vocab` builder are external libraries and enter as function
  parameters, exactly as they are injected in the source.
-/

/-- `AbstractPreprocessing.save_pretrained` (lines 37-40): serializes the
whole object with jsonpickle and writes it to `<ClassName>.json`.  The
model returns the written file: a snapshot of the receiver. -/
def save_pretrained {α : Type} (self : α) : Option α :=
  some self

/-- `AbstractPreprocessing.load_pretrained` (lines 42-49): reads the file
when it exists and binds the jsonpickle-decoded object to the local name
`self`, which rebinds the method-local variable and leaves the receiver
untouched; when the file is absent it catches `FileNotFoundError` and
emits a warning.  Result: (receiver after the call, warning emitted). -/
def load_pretrained {α : Type} (file : Option α) (self : α) : α × Bool :=
  match file with
  | some whole_class =>
      let _self := whole_class
      (self, false)
  | none => (self, true)

/-- `PreprocessingPipeline` (lines 89-122): `list_of_cls` is the list of
(preprocessing instance, data-type marker) pairs.  A stage instance is
modelled by its `transform` method acting on a shared mutable store of
type `σ` (the stage objects' attributes) and a batch of type `α`; the
marker type `β` is opaque, as `transform` never reads it. -/
structure PreprocessingPipeline (σ α β : Type) where
  list_of_cls : List ((σ → α → α × σ) × β)

/-- `PreprocessingPipeline.transform` (lines 104-107): threads the batch
through each stage transform of `list_of_cls` in list order. -/
def PreprocessingPipeline.transform {σ α β : Type}
    (self : PreprocessingPipeline σ α β) (batch : α) (store : σ) : α × σ :=
  self.list_of_cls.foldl (fun acc cd => cd.1 acc.2 acc.1) (batch, store)

/-- `PreprocessingPipeline.__add__` (lines 121-122): concatenation of the
stage lists. -/
def PreprocessingPipeline.add {σ α β : Type}
    (self other : PreprocessingPipeline σ α β) : PreprocessingPipeline σ α β :=
  { list_of_cls := self.list_of_cls ++ other.list_of_cls }

/-- Claim C9: `load_pretrained` binds the decoded snapshot to a local name
and discards it, so in every case — file absent or present — the fields of
the receiver are unchanged: `load_pretrained` is observably a no-op on the
receiver's state. -/
theorem C9_load_pretrained_is_noop_on_receiver {α : Type}
    (file : Option α) (self : α) :
    (load_pretrained file self).1 = self := by
  cases file <;> rfl

/-- Claim C4: `A + B` produces a pipeline whose stage list is `A`'s stages
followed by `B`'s stages, and `transform` applies each stage's transform in
list order, hence `(A + B).transform x = B.transform (A.transform x)` with
the stage store threaded through. -/
theorem C4_pipeline_add_transform {σ α β : Type}
    (A B : PreprocessingPipeline σ α β) (x : α) (store : σ) :
    (A.add B).list_of_cls = A.list_of_cls ++ B.list_of_cls ∧
    (A.add B).transform x store =
      B.transform (A.transform x store).1 (A.transform x store).2 := by
  refine ⟨rfl, ?_⟩
  unfold PreprocessingPipeline.transform PreprocessingPipeline.add
  rw [List.foldl_append]

/-- The epsilon `1e-7` added to the stddev tensor in
`Normalisation.transform` (line 74). -/
def stddevEpsilon : ℚ := 1 / 10000000

/-- `Normalisation` (lines 51-86): stores the fitted flag and the fitted
per-dimension `mean` and `stddev` tensors, modelled as lists of rationals
(one entry per dimension). -/
structure Normalisation where
  is_fitted : Bool
  mean : List ℚ
  stddev : List ℚ

/-- Elementwise `(datum - mean) / stddev` of line 75. -/
def normaliseOut (datum mean stddev : List ℚ) : List ℚ :=
  List.zipWith (fun a b => a / b) (List.zipWith (fun a b => a - b) datum mean) stddev

/-- `Normalisation.fit_to_data` (lines 63-67): stores the mean and the
standard deviation over the leading dimension (delegated to torch, so the
two statistics enter as function parameters), sets `is_fitted = True` and
persists to the current directory.  Result: (new state, written file). -/
def Normalisation.fit_to_data (mean_fn stddev_fn : List (List ℚ) → List ℚ)
    (_self : Normalisation) (data : List (List ℚ)) :
    Normalisation × Option Normalisation :=
  let s1 : Normalisation :=
    { is_fitted := true, mean := mean_fn data, stddev := stddev_fn data }
  (s1, save_pretrained s1)

/-- `Normalisation.transform` (lines 69-76): when unfitted, first attempts
`load_pretrained` on the current directory (a no-op on the receiver, see
`load_pretrained`); when some stddev entry is not strictly positive, warns
and overwrites `self.stddev` with `self.stddev + 1e-7`; finally returns
`(datum - mean) / stddev`.  Result:
(output, new state, missing-file warning, zero-stddev warning). -/
def Normalisation.transform (file : Option Normalisation)
    (self : Normalisation) (datum : List ℚ) :
    List ℚ × Normalisation × Bool × Bool :=
  let loaded := if self.is_fitted then (self, false) else load_pretrained file self
  let s1 := loaded.1
  if s1.stddev.all (fun x => decide (0 < x)) then
    (normaliseOut datum s1.mean s1.stddev, s1, loaded.2, false)
  else
    let s2 : Normalisation := { s1 with stddev := s1.stddev.map (fun x => x + stddevEpsilon) }
    (normaliseOut datum s2.mean s2.stddev, s2, loaded.2, true)

theorem Normalisation.transform_loaded_state (file : Option Normalisation)
    (self : Normalisation) (datum : List ℚ) :
    Normalisation.transform file self datum =
      (if self.stddev.all (fun x => decide (0 < x)) then
        (normaliseOut datum self.mean self.stddev, self,
          (if self.is_fitted then false else (load_pretrained file self).2), false)
      else
        (normaliseOut datum self.mean (self.stddev.map (fun x => x + stddevEpsilon)),
          { self with stddev := self.stddev.map (fun x => x + stddevEpsilon) },
          (if self.is_fitted then false else (load_pretrained file self).2), true)) := by
  unfold Normalisation.transform
  cases hf : self.is_fitted <;> cases file <;> simp [load_pretrained, hf]

/-- Claim C6: for a fitted `Normalisation` stage whose stddev tensor has a
zero entry (stddev entries are nonnegative, being standard deviations),
`transform` emits the warning, adds `1e-7` uniformly to every stddev entry
(also the nonzero ones), returns `(datum - mean) / stddev` with the patched
stddev, and every entry of the divisor is strictly positive, so the result
is finite in every dimension (no division by zero occurs). -/
theorem C6_zero_stddev_patched (s : Normalisation) (datum : List ℚ)
    (file : Option Normalisation)
    (hfit : s.is_fitted = true)
    (hnn : ∀ x ∈ s.stddev, 0 ≤ x) (hz : (0:ℚ) ∈ s.stddev) :
    (Normalisation.transform file s datum).2.2.2 = true ∧
    (Normalisation.transform file s datum).2.1.stddev =
      s.stddev.map (fun x => x + stddevEpsilon) ∧
    (Normalisation.transform file s datum).1 =
      normaliseOut datum s.mean (s.stddev.map (fun x => x + stddevEpsilon)) ∧
    ∀ y ∈ s.stddev.map (fun x => x + stddevEpsilon), 0 < y := by
  have hall : s.stddev.all (fun x => decide (0 < x)) = false := by
    rw [Bool.eq_false_iff]
    intro hcontra
    have := List.all_eq_true.mp hcontra 0 hz
    simp at this
  have hpos : ∀ y ∈ s.stddev.map (fun x => x + stddevEpsilon), 0 < y := by
    intro y hy
    rcases List.mem_map.mp hy with ⟨x, hx, rfl⟩
    have h0 : (0:ℚ) ≤ x := hnn x hx
    have he : (0:ℚ) < stddevEpsilon := by norm_num [stddevEpsilon]
    linarith
  rw [Normalisation.transform_loaded_state, hall]
  refine ⟨?_, ?_, ?_, hpos⟩ <;> simp

/-- Claim C10: `Normalisation.transform` is not read-only on the fitted
state: when some stddev entry is not strictly positive (entries being
nonnegative standard deviations), it permanently overwrites the stored
stddev with `stddev + 1e-7`; after this patch every entry is strictly
positive, so a later `transform` call does not add the epsilon again and
leaves the stddev unchanged; the `mean` and `is_fitted` fields are never
modified by `transform`, for any state. -/
theorem C10_transform_mutates_stddev (s : Normalisation)
    (datum datum2 : List ℚ) (file file2 : Option Normalisation)
    (hnn : ∀ x ∈ s.stddev, 0 ≤ x)
    (hcond : s.stddev.all (fun x => decide (0 < x)) = false) :
    (Normalisation.transform file s datum).2.1.stddev =
      s.stddev.map (fun x => x + stddevEpsilon) ∧
    (∀ y ∈ (Normalisation.transform file s datum).2.1.stddev, 0 < y) ∧
    (Normalisation.transform file2 (Normalisation.transform file s datum).2.1
        datum2).2.1.stddev = (Normalisation.transform file s datum).2.1.stddev ∧
    (Normalisation.transform file2 (Normalisation.transform file s datum).2.1
        datum2).2.2.2 = false ∧
    (∀ (t : Normalisation) (dt : List ℚ) (f : Option Normalisation),
      (Normalisation.transform f t dt).2.1.mean = t.mean ∧
      (Normalisation.transform f t dt).2.1.is_fitted = t.is_fitted) := by
  have hpos : ∀ y ∈ s.stddev.map (fun x => x + stddevEpsilon), 0 < y := by
    intro y hy
    rcases List.mem_map.mp hy with ⟨x, hx, rfl⟩
    have h0 : (0:ℚ) ≤ x := hnn x hx
    have he : (0:ℚ) < stddevEpsilon := by norm_num [stddevEpsilon]
    linarith
  have hs1 : (Normalisation.transform file s datum).2.1 =
      { s with stddev := s.stddev.map (fun x => x + stddevEpsilon) } := by
    rw [Normalisation.transform_loaded_state, hcond]
    simp
  have hall2 : ({ s with stddev := s.stddev.map (fun x => x + stddevEpsilon) } :
      Normalisation).stddev.all (fun x => decide (0 < x)) = true := by
    rw [List.all_eq_true]
    intro x hx
    simpa using hpos x hx
  refine ⟨by rw [hs1], by rw [hs1]; exact hpos, ?_, ?_, ?_⟩
  · rw [hs1, Normalisation.transform_loaded_state, hall2]
    simp
  · rw [hs1, Normalisation.transform_loaded_state, hall2]
    simp
  · intro t dt f
    rw [Normalisation.transform_loaded_state]
    by_cases h : t.stddev.all (fun x => decide (0 < x)) = true
    · rw [h]
      exact ⟨rfl, rfl⟩
    · rw [Bool.eq_false_iff.mpr h]
      exact ⟨rfl, rfl⟩

/-- Concrete fitted normalisation state with a zero stddev entry. -/
def normExample : Normalisation :=
  { is_fitted := true, mean := [0, 0], stddev := [1, 0] }

/-- Witness for C6 at a concrete state and datum. -/
theorem C6_zero_stddev_patched_witness :
    (Normalisation.transform none normExample [5, 3]).2.2.2 = true ∧
    (Normalisation.transform none normExample [5, 3]).2.1.stddev =
      normExample.stddev.map (fun x => x + stddevEpsilon) ∧
    (Normalisation.transform none normExample [5, 3]).1 =
      normaliseOut [5, 3] normExample.mean
        (normExample.stddev.map (fun x => x + stddevEpsilon)) ∧
    ∀ y ∈ normExample.stddev.map (fun x => x + stddevEpsilon), 0 < y :=
  C6_zero_stddev_patched normExample [5, 3] none rfl
    (by decide) (by decide)

/-- Witness for C10 at a concrete state and datum. -/
theorem C10_transform_mutates_stddev_witness :
    (Normalisation.transform none normExample [5, 3]).2.1.stddev =
      normExample.stddev.map (fun x => x + stddevEpsilon) ∧
    (∀ y ∈ (Normalisation.transform none normExample [5, 3]).2.1.stddev, 0 < y) ∧
    (Normalisation.transform none (Normalisation.transform none normExample [5, 3]).2.1
        [7]).2.1.stddev = (Normalisation.transform none normExample [5, 3]).2.1.stddev ∧
    (Normalisation.transform none (Normalisation.transform none normExample [5, 3]).2.1
        [7]).2.2.2 = false ∧
    (∀ (t : Normalisation) (dt : List ℚ) (f : Option Normalisation),
      (Normalisation.transform f t dt).2.1.mean = t.mean ∧
      (Normalisation.transform f t dt).2.1.is_fitted = t.is_fitted) :=
  C10_transform_mutates_stddev normExample [5, 3] [7] none none
    (by decide) (by decide)

/-- A sample text as the text stages receive it: either a bare string or a
tuple/list of strings, of which the code takes element `[0]` (a tuple with
at least one element; indexing an empty tuple would raise). -/
inductive TextDatum where
  | plain (text : String)
  | wrapped (hd : String) (tl : List String)

/-- The `if isinstance(text, tuple) or isinstance(text, list): text = text[0]`
unwrapping used by `PreprocessTextData.fit_to_data` (lines 160-161) and
`PreprocessTextData.transform` (lines 186-187). -/
def unwrapFirst : TextDatum → String
  | TextDatum.plain t => t
  | TextDatum.wrapped h _ => h

/-- `PreprocessTextData` (lines 125-147): tokenizer, optional vocabulary
(`None` until fitted or supplied), `MAX_LENGTH` and the fitted flag.  A
vocabulary is the torchtext token-to-id lookup, a total function on
tokens. -/
structure PreprocessTextData where
  tokenizer : String → List String
  vocabulary : Option (String → ℕ)
  MAX_LENGTH : ℕ
  is_fitted : Bool

/-- `PreprocessTextData.fit_to_data` (lines 149-168): accumulates the token
counter and the running maximum tokenized length over the `(label, text)`
pairs, builds a vocabulary from the counter when none was supplied (the
torchtext `Vocab` constructor enters as the parameter `buildVocab`), sets
`is_fitted = True` and persists.  Result: (new state, written file). -/
def PreprocessTextData.fit_to_data (buildVocab : List String → (String → ℕ))
    (self : PreprocessTextData) (data : List (String × TextDatum)) :
    PreprocessTextData × Option PreprocessTextData :=
  let folded := data.foldl
    (fun acc lt =>
      let text := unwrapFirst lt.2
      (acc.1 ++ self.tokenizer text, max acc.2 (self.tokenizer text).length))
    (([] : List String), self.MAX_LENGTH)
  let voc : String → ℕ :=
    match self.vocabulary with
    | none => buildVocab folded.1
    | some v => v
  let s1 : PreprocessTextData :=
    { self with vocabulary := some voc, MAX_LENGTH := folded.2, is_fitted := true }
  (s1, save_pretrained s1)

/-- The body of `PreprocessTextData.transform` after the lazy-load step
(lines 180-194): looks every token up in the vocabulary, then right-pads
with `pad_item = vocabulary["."]` up to `MAX_LENGTH`.  `none` models the
raised error when the vocabulary is `None` or when
`MAX_LENGTH - len(processed_text)` is negative (`torch.ones` of a negative
size raises). -/
def PreprocessTextData.transformCore (self : PreprocessTextData)
    (datum : TextDatum) : Option (List ℕ) :=
  match self.vocabulary with
  | none => none
  | some voc =>
    let text_pipeline := fun x => (self.tokenizer x).map voc
    let pad_item := voc "."
    let processed_text := text_pipeline (unwrapFirst datum)
    if self.MAX_LENGTH < processed_text.length then none
    else
      some (processed_text ++
        List.replicate (self.MAX_LENGTH - processed_text.length) pad_item)

/-- `PreprocessTextData.transform` (lines 170-194): when unfitted, first
attempts `load_pretrained` (a no-op on the receiver), then runs the body on
the (unchanged) state.  Result: (output, state, missing-file warning). -/
def PreprocessTextData.transform (file : Option PreprocessTextData)
    (self : PreprocessTextData) (datum : TextDatum) :
    Option (List ℕ) × PreprocessTextData × Bool :=
  let loaded := if self.is_fitted then (self, false) else load_pretrained file self
  (PreprocessTextData.transformCore loaded.1 datum, loaded.1, loaded.2)

/-- `PreprocessTextTranslation` (lines 218-248): two tokenizers, two
optional vocabularies, one shared `MAX_LENGTH`, fitted flag. -/
structure PreprocessTextTranslation where
  tokenizer : String → List String
  tokenizer_target : String → List String
  vocabulary : Option (String → ℕ)
  vocabulary_target : Option (String → ℕ)
  MAX_LENGTH : ℕ
  is_fitted : Bool

/-- `PreprocessTextTranslation.fit_to_data` (lines 250-264): two counters
(source with `tokenizer`, target with `tokenizer_target`), one shared
running `MAX_LENGTH` over both sides, vocabularies built from the counters
when not supplied, `is_fitted = True`, persist. -/
def PreprocessTextTranslation.fit_to_data
    (buildVocab buildVocabTarget : List String → (String → ℕ))
    (self : PreprocessTextTranslation) (data : List (String × String)) :
    PreprocessTextTranslation × Option PreprocessTextTranslation :=
  let folded := data.foldl
    (fun acc text =>
      (acc.1 ++ self.tokenizer text.1,
       acc.2.1 ++ self.tokenizer_target text.2,
       max (max acc.2.2 (self.tokenizer text.1).length)
         (self.tokenizer_target text.2).length))
    (([] : List String), ([] : List String), self.MAX_LENGTH)
  let voc : String → ℕ :=
    match self.vocabulary with
    | none => buildVocab folded.1
    | some v => v
  let voc_target : String → ℕ :=
    match self.vocabulary_target with
    | none => buildVocabTarget folded.2.1
    | some v => v
  let s1 : PreprocessTextTranslation :=
    { self with vocabulary := some voc, vocabulary_target := some voc_target,
                MAX_LENGTH := folded.2.2, is_fitted := true }
  (s1, save_pretrained s1)

/-- The body of `PreprocessTextTranslation.transform` after the lazy-load
step (lines 276-295).  Note: the source defines `text_pipeline_target`
(line 278) but line 286 applies `text_pipeline` — the source-vocabulary
pipeline with the source tokenizer — to `datum[1]`, while the padding of
the target side uses `pad_item_target = vocabulary_target["."]`.  The
unused local is kept to mirror the source. -/
def PreprocessTextTranslation.transformCore (self : PreprocessTextTranslation)
    (datum : String × String) : Option (List ℕ × List ℕ) :=
  match self.vocabulary, self.vocabulary_target with
  | some voc, some voc_target =>
    let text_pipeline := fun x => (self.tokenizer x).map voc
    let _text_pipeline_target := fun x => (self.tokenizer_target x).map voc_target
    let pad_item := voc "."
    let pad_item_target := voc_target "."
    let processed_text := text_pipeline datum.1
    let processed_text_target := text_pipeline datum.2
    if self.MAX_LENGTH < processed_text.length then none
    else if self.MAX_LENGTH < processed_text_target.length then none
    else
      some (processed_text ++
          List.replicate (self.MAX_LENGTH - processed_text.length) pad_item,
        processed_text_target ++
          List.replicate (self.MAX_LENGTH - processed_text_target.length) pad_item_target)
  | _, _ => none

/-- `PreprocessTextTranslation.transform` (lines 266-295): lazy load, then
the body on the unchanged state. -/
def PreprocessTextTranslation.transform (file : Option PreprocessTextTranslation)
    (self : PreprocessTextTranslation) (datum : String × String) :
    Option (List ℕ × List ℕ) × PreprocessTextTranslation × Bool :=
  let loaded := if self.is_fitted then (self, false) else load_pretrained file self
  (PreprocessTextTranslation.transformCore loaded.1 datum, loaded.1, loaded.2)

/-- Modelled from the spec: section 4.5 — `transform(datum)` "tokenizes and
maps both source and target to integer ids using their respective
vocabularies and pad ids; pads each independently to the single shared
MAX_LENGTH; returns both as a pair".  Identical to
`PreprocessTextTranslation.transformCore` except that the target side is
mapped through the target tokenizer and target vocabulary. -/
def PreprocessTextTranslation.transformSpecCore (self : PreprocessTextTranslation)
    (datum : String × String) : Option (List ℕ × List ℕ) :=
  match self.vocabulary, self.vocabulary_target with
  | some voc, some voc_target =>
    let text_pipeline := fun x => (self.tokenizer x).map voc
    let text_pipeline_target := fun x => (self.tokenizer_target x).map voc_target
    let pad_item := voc "."
    let pad_item_target := voc_target "."
    let processed_text := text_pipeline datum.1
    let processed_text_target := text_pipeline_target datum.2
    if self.MAX_LENGTH < processed_text.length then none
    else if self.MAX_LENGTH < processed_text_target.length then none
    else
      some (processed_text ++
          List.replicate (self.MAX_LENGTH - processed_text.length) pad_item,
        processed_text_target ++
          List.replicate (self.MAX_LENGTH - processed_text_target.length) pad_item_target)
  | _, _ => none

/-- A Q&A sample as the QA stages receive it: `datum[0]` the context,
`datum[1]` the question, `datum[2]` the answer tuple, `datum[3]` the
answer-start character-position tuple. -/
structure QADatum where
  context : String
  question : String
  answer : List String
  init_position : List ℕ

/-- `PreprocessTextQA` (lines 298-318): tokenizer, optional shared
vocabulary, shared `MAX_LENGTH`, `pad_item` (set only by
`fit_to_data`, line 340, hence optional) and the fitted flag. -/
structure PreprocessTextQA where
  tokenizer : String → List String
  vocabulary : Option (String → ℕ)
  MAX_LENGTH : ℕ
  pad_item : Option ℕ
  is_fitted : Bool

/-- `PreprocessTextQA.fit_to_data` (lines 320-342): one shared counter and
one shared running `MAX_LENGTH` over context tokens then question tokens
per sample (the answer accounting is commented out in the source), builds
the vocabulary when not supplied, stores `pad_item = vocabulary["."]`,
sets `is_fitted = False` (line 341, as written in the source) and
persists.  Result: (new state, written file). -/
def PreprocessTextQA.fit_to_data (buildVocab : List String → (String → ℕ))
    (self : PreprocessTextQA) (data : List QADatum) :
    PreprocessTextQA × Option PreprocessTextQA :=
  let folded := data.foldl
    (fun acc d =>
      let acc1 := (acc.1 ++ self.tokenizer d.context,
        max acc.2 (self.tokenizer d.context).length)
      (acc1.1 ++ self.tokenizer d.question,
        max acc1.2 (self.tokenizer d.question).length))
    (([] : List String), self.MAX_LENGTH)
  let voc : String → ℕ :=
    match self.vocabulary with
    | none => buildVocab folded.1
    | some v => v
  let s1 : PreprocessTextQA :=
    { self with vocabulary := some voc, MAX_LENGTH := folded.2,
                pad_item := some (voc "."), is_fitted := false }
  (s1, save_pretrained s1)

/-- The body of `PreprocessTextQA.transform` after the lazy-load step
(lines 347-362): context and question are both mapped through the shared
vocabulary and padded with the stored `pad_item` to the shared
`MAX_LENGTH`. -/
def PreprocessTextQA.transformCore (self : PreprocessTextQA)
    (datum : QADatum) : Option (List ℕ × List ℕ) :=
  match self.vocabulary, self.pad_item with
  | some voc, some pad =>
    let text_pipeline := fun x => (self.tokenizer x).map voc
    let processed_context := text_pipeline datum.context
    let processed_question := text_pipeline datum.question
    if self.MAX_LENGTH < processed_context.length then none
    else if self.MAX_LENGTH < processed_question.length then none
    else
      some (processed_context ++
          List.replicate (self.MAX_LENGTH - processed_context.length) pad,
        processed_question ++
          List.replicate (self.MAX_LENGTH - processed_question.length) pad)
  | _, _ => none

/-- `PreprocessTextQA.transform` (lines 344-362): lazy load when the flag
is false, then the body on the unchanged state. -/
def PreprocessTextQA.transform (file : Option PreprocessTextQA)
    (self : PreprocessTextQA) (datum : QADatum) :
    Option (List ℕ × List ℕ) × PreprocessTextQA × Bool :=
  let loaded := if self.is_fitted then (self, false) else load_pretrained file self
  (PreprocessTextQA.transformCore loaded.1 datum, loaded.1, loaded.2)

/-- `PreprocessTextQATarget` (lines 365-383): tokenizer, `MAX_LENGTH` and
fitted flag (its `fit_to_data`, lines 385-386, is a no-op). -/
structure PreprocessTextQATarget where
  tokenizer : String → List String
  MAX_LENGTH : ℕ
  is_fitted : Bool

/-- `PreprocessTextQATarget.transform` (lines 388-394):
`pos_init_char = datum[3][0]`, the start is the tokenized length of
`datum[0][:pos_init_char]`, the end is the start plus the tokenized
length of `datum[2][0]`.  `none` models the index error on an empty
position or answer tuple. -/
def PreprocessTextQATarget.transform (self : PreprocessTextQATarget)
    (datum : QADatum) : Option (ℕ × ℕ) :=
  match datum.init_position, datum.answer with
  | pos_init_char :: _, answer_text :: _ =>
    let pos_init := (self.tokenizer (datum.context.take pos_init_char)).length
    let pos_end := pos_init + (self.tokenizer answer_text).length
    some (pos_init, pos_end)
  | _, _ => none

theorem textData_transform_fst (file : Option PreprocessTextData)
    (self : PreprocessTextData) (datum : TextDatum) :
    (PreprocessTextData.transform file self datum).1 =
      PreprocessTextData.transformCore self datum := by
  unfold PreprocessTextData.transform
  cases hf : self.is_fitted <;> cases file <;> rfl

theorem textQA_transform_fst (file : Option PreprocessTextQA)
    (self : PreprocessTextQA) (datum : QADatum) :
    (PreprocessTextQA.transform file self datum).1 =
      PreprocessTextQA.transformCore self datum := by
  unfold PreprocessTextQA.transform
  cases hf : self.is_fitted <;> cases file <;> rfl

theorem textData_transformCore_padded (self : PreprocessTextData)
    (v : String → ℕ) (datum : TextDatum)
    (hv : self.vocabulary = some v)
    (hlen : ((self.tokenizer (unwrapFirst datum)).map v).length ≤ self.MAX_LENGTH) :
    PreprocessTextData.transformCore self datum =
      some (((self.tokenizer (unwrapFirst datum)).map v) ++
        List.replicate
          (self.MAX_LENGTH - ((self.tokenizer (unwrapFirst datum)).map v).length)
          (v ".")) := by
  unfold PreprocessTextData.transformCore
  rw [hv]
  have h := Nat.not_lt.mpr hlen
  have h2 : (self.tokenizer (unwrapFirst datum)).length ≤ self.MAX_LENGTH := by
    simpa using hlen
  simp [h, h2]

theorem textQA_transformCore_padded (self : PreprocessTextQA)
    (w : String → ℕ) (p : ℕ) (datum : QADatum)
    (hv : self.vocabulary = some w) (hp : self.pad_item = some p)
    (hcl : ((self.tokenizer datum.context).map w).length ≤ self.MAX_LENGTH)
    (hql : ((self.tokenizer datum.question).map w).length ≤ self.MAX_LENGTH) :
    PreprocessTextQA.transformCore self datum =
      some (((self.tokenizer datum.context).map w) ++
          List.replicate
            (self.MAX_LENGTH - ((self.tokenizer datum.context).map w).length) p,
        ((self.tokenizer datum.question).map w) ++
          List.replicate
            (self.MAX_LENGTH - ((self.tokenizer datum.question).map w).length) p) := by
  unfold PreprocessTextQA.transformCore
  rw [hv, hp]
  have hc := Nat.not_lt.mpr hcl
  have hq := Nat.not_lt.mpr hql
  have hc2 : (self.tokenizer datum.context).length ≤ self.MAX_LENGTH := by
    simpa using hcl
  have hq2 : (self.tokenizer datum.question).length ≤ self.MAX_LENGTH := by
    simpa using hql
  simp [hc, hq, hc2, hq2]

theorem padded_length_and_tail (idlist : List ℕ) (ML pad : ℕ)
    (h : idlist.length ≤ ML) :
    (idlist ++ List.replicate (ML - idlist.length) pad).length = ML ∧
    (idlist ++ List.replicate (ML - idlist.length) pad).drop idlist.length =
      List.replicate (ML - idlist.length) pad := by
  constructor
  · simp [Nat.add_sub_cancel' h]
  · exact List.drop_left idlist (List.replicate (ML - idlist.length) pad)

/-- Claim C5: on any sample whose tokenized length is at most the fitted
`MAX_LENGTH`, the output of `PreprocessTextData.transform` has length
exactly `MAX_LENGTH` and every position at an index at or beyond the real
token count holds the pad id `vocabulary["."]` (the tail beyond the tokens
is all pads); likewise for both outputs of `PreprocessTextQA.transform`,
whose stored `pad_item` is the vocabulary id of `"."` after fitting. -/
theorem C5_padding_invariant
    (s : PreprocessTextData) (v : String → ℕ) (d : TextDatum)
    (file : Option PreprocessTextData)
    (q : PreprocessTextQA) (w : String → ℕ) (qd : QADatum)
    (qfile : Option PreprocessTextQA)
    (hfit : s.is_fitted = true) (hv : s.vocabulary = some v)
    (hlen : ((s.tokenizer (unwrapFirst d)).map v).length ≤ s.MAX_LENGTH)
    (hqv : q.vocabulary = some w) (hqp : q.pad_item = some (w "."))
    (hcl : ((q.tokenizer qd.context).map w).length ≤ q.MAX_LENGTH)
    (hql : ((q.tokenizer qd.question).map w).length ≤ q.MAX_LENGTH) :
    (∃ out, (PreprocessTextData.transform file s d).1 = some out ∧
      out.length = s.MAX_LENGTH ∧
      out.drop ((s.tokenizer (unwrapFirst d)).map v).length =
        List.replicate
          (s.MAX_LENGTH - ((s.tokenizer (unwrapFirst d)).map v).length) (v ".")) ∧
    (∃ oc oq, (PreprocessTextQA.transform qfile q qd).1 = some (oc, oq) ∧
      oc.length = q.MAX_LENGTH ∧ oq.length = q.MAX_LENGTH ∧
      oc.drop ((q.tokenizer qd.context).map w).length =
        List.replicate
          (q.MAX_LENGTH - ((q.tokenizer qd.context).map w).length) (w ".") ∧
      oq.drop ((q.tokenizer qd.question).map w).length =
        List.replicate
          (q.MAX_LENGTH - ((q.tokenizer qd.question).map w).length) (w ".")) := by
  constructor
  · refine ⟨((s.tokenizer (unwrapFirst d)).map v) ++
      List.replicate
        (s.MAX_LENGTH - ((s.tokenizer (unwrapFirst d)).map v).length) (v "."),
      ?_, (padded_length_and_tail _ _ _ hlen).1, (padded_length_and_tail _ _ _ hlen).2⟩
    rw [textData_transform_fst,
      textData_transformCore_padded s v d hv hlen]
  · refine ⟨((q.tokenizer qd.context).map w) ++
      List.replicate
        (q.MAX_LENGTH - ((q.tokenizer qd.context).map w).length) (w "."),
      ((q.tokenizer qd.question).map w) ++
      List.replicate
        (q.MAX_LENGTH - ((q.tokenizer qd.question).map w).length) (w "."),
      ?_, (padded_length_and_tail _ _ _ hcl).1, (padded_length_and_tail _ _ _ hql).1,
      (padded_length_and_tail _ _ _ hcl).2, (padded_length_and_tail _ _ _ hql).2⟩
    rw [textQA_transform_fst,
      textQA_transformCore_padded q w (w ".") qd hqv hqp hcl hql]

/-- Claim C3: `PreprocessTextQA.fit_to_data` leaves `is_fitted = false`
(line 341 assigns `False` after fitting), so every subsequent `transform`
call takes the reload branch (witnessed by the missing-file warning when no
file is present); every other Stage variant whose `fit_to_data` assigns the
flag — `Normalisation`, `PreprocessTextData`, `PreprocessTextTranslation` —
leaves `is_fitted = true`. -/
theorem C3_qa_fit_leaves_unfitted
    (buildVocab buildVocabTarget : List String → (String → ℕ))
    (mean_fn stddev_fn : List (List ℚ) → List ℚ)
    (qa : PreprocessTextQA) (qadata : List QADatum) (d : QADatum)
    (nrm : Normalisation) (ndata : List (List ℚ))
    (td : PreprocessTextData) (tdata : List (String × TextDatum))
    (tr : PreprocessTextTranslation) (trdata : List (String × String)) :
    (PreprocessTextQA.fit_to_data buildVocab qa qadata).1.is_fitted = false ∧
    (PreprocessTextQA.transform none
      (PreprocessTextQA.fit_to_data buildVocab qa qadata).1 d).2.2 = true ∧
    (Normalisation.fit_to_data mean_fn stddev_fn nrm ndata).1.is_fitted = true ∧
    (PreprocessTextData.fit_to_data buildVocab td tdata).1.is_fitted = true ∧
    (PreprocessTextTranslation.fit_to_data buildVocab buildVocabTarget
      tr trdata).1.is_fitted = true :=
  ⟨rfl, rfl, rfl, rfl, rfl⟩

/-- Claim C7: with no persisted file at the path, `load_pretrained` emits
the warning and returns normally (it is a total function: the
`FileNotFoundError` is caught), and a `transform` call on an unfitted stage
proceeds on exactly the in-memory state: the result is the transform body
applied to the unchanged receiver. -/
theorem C7_missing_file_warns (self : PreprocessTextData) (datum : TextDatum)
    (h : self.is_fitted = false) :
    load_pretrained (none : Option PreprocessTextData) self = (self, true) ∧
    PreprocessTextData.transform none self datum =
      (PreprocessTextData.transformCore self datum, self, true) := by
  refine ⟨rfl, ?_⟩
  unfold PreprocessTextData.transform
  rw [h]
  rfl

/-- Claim C8: `PreprocessTextQATarget.transform` returns the pair whose
start is the tokenized length of the context prefix of
`datum[3][0]` characters and whose end is that start plus the tokenized
length of the answer text `datum[2][0]`. -/
theorem C8_qa_target_span (s : PreprocessTextQATarget) (d : QADatum)
    (p : ℕ) (prest : List ℕ) (a : String) (arest : List String)
    (hp : d.init_position = p :: prest) (ha : d.answer = a :: arest) :
    PreprocessTextQATarget.transform s d =
      some ((s.tokenizer (d.context.take p)).length,
        (s.tokenizer (d.context.take p)).length + (s.tokenizer a).length) := by
  unfold PreprocessTextQATarget.transform
  rw [hp, ha]

/-- A tokenizer for concrete witnesses: the whole string is one token. -/
def exTokenizer : String → List String := fun s => [s]

/-- A vocabulary mapping every token to 1. -/
def exVocabOne : String → ℕ := fun _ => 1

/-- A vocabulary mapping every token to 2. -/
def exVocabTwo : String → ℕ := fun _ => 2

/-- A fitted text-classification stage. -/
def tdFitted : PreprocessTextData :=
  { tokenizer := exTokenizer, vocabulary := some exVocabOne,
    MAX_LENGTH := 4, is_fitted := true }

/-- A freshly constructed text-classification stage, as `__init__`
(lines 138-147) leaves it with no supplied vocabulary. -/
def tdFresh : PreprocessTextData :=
  { tokenizer := exTokenizer, vocabulary := none,
    MAX_LENGTH := 0, is_fitted := false }

/-- An unfitted stage that still has usable in-memory state. -/
def tdInMemory : PreprocessTextData :=
  { tokenizer := exTokenizer, vocabulary := some exVocabOne,
    MAX_LENGTH := 2, is_fitted := false }

/-- Claim C1, evaluated at the failing input: `tdFitted` is a fitted stage
(`is_fitted = true`, `MAX_LENGTH = 4`, a vocabulary present);
`save_pretrained` followed by `load_pretrained` on the fresh instance
`tdFresh` leaves the fresh instance with `is_fitted = false`,
`MAX_LENGTH = 0` and no vocabulary — none of the three state components of
the saved instance is reproduced, because `load_pretrained` discards the
decoded snapshot. -/
theorem C1_roundtrip_not_restored :
    tdFitted.is_fitted = true ∧ tdFitted.MAX_LENGTH = 4 ∧
    tdFitted.vocabulary = some exVocabOne ∧
    (load_pretrained (save_pretrained tdFitted) tdFresh).1.is_fitted = false ∧
    (load_pretrained (save_pretrained tdFitted) tdFresh).1.MAX_LENGTH = 0 ∧
    (load_pretrained (save_pretrained tdFitted) tdFresh).1.vocabulary = none :=
  ⟨rfl, rfl, rfl, rfl, rfl, rfl⟩

/-- A fitted translation stage whose source vocabulary maps every token to
1 and whose target vocabulary maps every token to 2. -/
def trExample : PreprocessTextTranslation :=
  { tokenizer := exTokenizer, tokenizer_target := exTokenizer,
    vocabulary := some exVocabOne, vocabulary_target := some exVocabTwo,
    MAX_LENGTH := 1, is_fitted := true }

/-- Claim C2, evaluated at the failing input: on the fitted stage
`trExample` and the sample `("a", "b")`, the code maps the target text
through `text_pipeline` — the source tokenizer and source vocabulary
(line 286) — yielding target id 1, while the spec-modelled transform, which
maps the target through its own tokenizer and vocabulary, yields target
id 2. -/
theorem C2_target_mapped_with_source_vocabulary :
    (PreprocessTextTranslation.transform none trExample ("a", "b")).1 =
      some ([1], [1]) ∧
    PreprocessTextTranslation.transformSpecCore trExample ("a", "b") =
      some ([1], [2]) :=
  ⟨rfl, rfl⟩

/-- A QA stage after fitting: shared vocabulary present, `pad_item` equal
to the vocabulary id of the padding token, `is_fitted` left false as
`PreprocessTextQA.fit_to_data` leaves it. -/
def qaExample : PreprocessTextQA :=
  { tokenizer := exTokenizer, vocabulary := some exVocabTwo,
    MAX_LENGTH := 3, pad_item := some (exVocabTwo "."), is_fitted := false }

/-- The spec's concrete QA sample: answer `"brown"` at character offset 10
of the context. -/
def qadExample : QADatum :=
  { context := "the quick brown fox", question := "q",
    answer := ["brown"], init_position := [10] }

/-- A QA-target stage with the one-token witness tokenizer. -/
def qatExample : PreprocessTextQATarget :=
  { tokenizer := exTokenizer, MAX_LENGTH := 0, is_fitted := false }

/-- Witness for C5 at a fitted stage, a QA stage and concrete samples. -/
theorem C5_padding_invariant_witness :
    (∃ out, (PreprocessTextData.transform none tdFitted
        (TextDatum.plain "x")).1 = some out ∧
      out.length = tdFitted.MAX_LENGTH ∧
      out.drop ((tdFitted.tokenizer (unwrapFirst
          (TextDatum.plain "x"))).map exVocabOne).length =
        List.replicate (tdFitted.MAX_LENGTH - ((tdFitted.tokenizer (unwrapFirst
          (TextDatum.plain "x"))).map exVocabOne).length) (exVocabOne ".")) ∧
    (∃ oc oq, (PreprocessTextQA.transform none qaExample qadExample).1 =
        some (oc, oq) ∧
      oc.length = qaExample.MAX_LENGTH ∧ oq.length = qaExample.MAX_LENGTH ∧
      oc.drop ((qaExample.tokenizer qadExample.context).map exVocabTwo).length =
        List.replicate (qaExample.MAX_LENGTH -
          ((qaExample.tokenizer qadExample.context).map exVocabTwo).length)
          (exVocabTwo ".") ∧
      oq.drop ((qaExample.tokenizer qadExample.question).map exVocabTwo).length =
        List.replicate (qaExample.MAX_LENGTH -
          ((qaExample.tokenizer qadExample.question).map exVocabTwo).length)
          (exVocabTwo ".")) :=
  C5_padding_invariant tdFitted exVocabOne (TextDatum.plain "x") none
    qaExample exVocabTwo qadExample none
    rfl rfl (by decide) rfl rfl (by decide) (by decide)

/-- Witness for C7 at a concrete unfitted stage and sample. -/
theorem C7_missing_file_warns_witness :
    load_pretrained (none : Option PreprocessTextData) tdInMemory =
      (tdInMemory, true) ∧
    PreprocessTextData.transform none tdInMemory (TextDatum.plain "a") =
      (PreprocessTextData.transformCore tdInMemory (TextDatum.plain "a"),
        tdInMemory, true) :=
  C7_missing_file_warns tdInMemory (TextDatum.plain "a") rfl

/-- Witness for C8 at the spec's concrete scenario 3. -/
theorem C8_qa_target_span_witness :
    PreprocessTextQATarget.transform qatExample qadExample =
      some ((qatExample.tokenizer (qadExample.context.take 10)).length,
        (qatExample.tokenizer (qadExample.context.take 10)).length +
          (qatExample.tokenizer "brown").length) :=
  C8_qa_target_span qatExample qadExample 10 [] "brown" [] rfl rfl
